import Mathlib

/-!
Formal model of the luna-back daily-earning limiter and energy-regeneration
engine, shallowly embedded from the Python sources:

* `src/services/daily_earning_service.py` — `DailyEarningService`
  (`process_click_earning`, `can_user_earn_in_partition`,
  `calculate_current_partition`, `calculate_partition_end_time`,
  `get_daily_earning_status`);
* `src/utils/energy_calc.py` — `calculate_energy`;
* `src/api/v1/sync_energy.py` and `src/schemas/user.py` — energy snapshot
  projection (`get_sync_energy`, `SGetSyncBalance.calculate_seconds_recharge`);
* `src/models/daily_earning.py` — the persisted records;
* `src/core/config.py` — the `Settings` defaults.

Modelling conventions:

* Python `float` arithmetic is idealised as exact rational arithmetic (`ℚ`);
  USD amounts, prices and energy values are rationals.
* Python `int(x)` truncates toward zero; this is `pyInt` below.
* Python `round(x, 3)` rounds half to even; this is `roundHalfEven` below.
* A wall-clock instant within one day is a `TimeOfDay`; `process_click_earning`
  calls `datetime.utcnow()` once, and all claims fix a single (user, date), so
  the persistent store restricted to that user and date is a `DayState`.
* SQLAlchemy commits inside `get_or_create_daily_earning` /
  `get_or_create_partition` persist the created rows even when the request
  later raises; an unhandled Python exception is the `exn` outcome, which
  carries the state as committed at the raise point.
* Audit timestamp columns (`created_at`, `updated_at`) and the fixed
  identifying columns (`user_id`, `earning_date`, foreign keys) are omitted
  from the record structures; a history entry keeps the partition number in
  place of its `partition_id` foreign key.
-/

set_option maxRecDepth 100000

/-- Configuration fields of `src/core/config.py : Settings` used by the
earning/energy core, with their source defaults. -/
structure Settings where
  DAILY_LIMIT_USD : ℚ := 30
  SECONDS_MAX_RECHARGE : ℚ := 10800
  MAX_CLICKS_PER_PARTITION : ℕ := 250
  DAILY_EARNING_LIMIT_USD : ℚ := 30
  EARNING_PARTITIONS_COUNT : ℕ := 6
  EARNING_PER_PARTITION_USD : ℚ := 5
  SECONDS_PER_PARTITION : ℕ := 14400
deriving Repr, DecidableEq

/-- The default configuration (every field at its `config.py` default). -/
def defaultSettings : Settings := {}

/-- A wall-clock time of day, as the `hour`/`minute`/`second` fields of a
Python `datetime`. -/
structure TimeOfDay where
  hour : ℕ
  minute : ℕ
  second : ℕ
deriving Repr, DecidableEq

/-- `current_time.hour * 3600 + current_time.minute * 60 + current_time.second`
(daily_earning_service.py line 91). -/
def secondsSinceMidnight (t : TimeOfDay) : ℕ :=
  t.hour * 3600 + t.minute * 60 + t.second

/-- Python `int(x)`: truncation toward zero. -/
def pyInt (q : ℚ) : ℤ :=
  if 0 ≤ q then ⌊q⌋ else -⌊-q⌋

/-- Python `round(x)` (no digits): round half to even. -/
def roundHalfEven (q : ℚ) : ℤ :=
  if q - ⌊q⌋ < 1/2 then ⌊q⌋
  else if 1/2 < q - ⌊q⌋ then ⌊q⌋ + 1
  else if ⌊q⌋ % 2 = 0 then ⌊q⌋ else ⌊q⌋ + 1

/-- Python `round(x, 3)`. -/
def round3 (q : ℚ) : ℚ := (roundHalfEven (q * 1000) : ℚ) / 1000

/-- The `daily_earnings` row for one (user, date)
(models/daily_earning.py : DailyEarning). -/
structure DailyEarning where
  total_earned_usd : ℚ
  total_earned_luna : ℤ
  partitions_used : ℕ
  max_partitions : ℕ
  is_daily_limit_reached : Bool
deriving Repr, DecidableEq

/-- An `earning_partitions` row (models/daily_earning.py : EarningPartition);
the partition number is the key it is stored under in `DayState.partitions`. -/
structure EarningPartition where
  earned_usd : ℚ
  earned_luna : ℤ
  clicks_count : ℕ
  max_clicks : ℕ
  is_partition_full : Bool
  partition_start_time : Option TimeOfDay
  partition_end_time : Option TimeOfDay
deriving Repr, DecidableEq

/-- An `earning_history` row (models/daily_earning.py : EarningHistory);
`partition_number` stands in for the `partition_id` foreign key. -/
structure EarningHistory where
  partition_number : ℕ
  click_timestamp : TimeOfDay
  earned_usd : ℚ
  earned_luna : ℤ
  luna_price_at_click : ℚ
  energy_consumed : ℤ
deriving Repr, DecidableEq

/-- The persistent store restricted to one user and one calendar date:
the optional daily record, the partitions keyed by partition number,
the append-only history, and the user's balance column. -/
structure DayState where
  daily : Option DailyEarning
  partitions : List (ℕ × EarningPartition)
  history : List EarningHistory
  balance : ℤ
deriving Repr, DecidableEq

/-- The store before the user's first click of the day. -/
def emptyState : DayState :=
  { daily := none, partitions := [], history := [], balance := 0 }

/-- Row lookup by partition number (the `select ... where partition_number ==`
queries of daily_earning_service.py). -/
def lookupPartition : List (ℕ × EarningPartition) → ℕ → Option EarningPartition
  | [], _ => none
  | (k, v) :: rest, pn => if k = pn then some v else lookupPartition rest pn

/-- Write a partition row back (update in place, or insert when absent). -/
def setPartition : List (ℕ × EarningPartition) → ℕ → EarningPartition →
    List (ℕ × EarningPartition)
  | [], pn, p => [(pn, p)]
  | (k, v) :: rest, pn, p =>
    if k = pn then (k, p) :: rest else (k, v) :: setPartition rest pn p

/-- A fresh `DailyEarning` row as created by `get_or_create_daily_earning`
(column defaults from the model, `max_partitions` from the settings). -/
def newDaily (s : Settings) : DailyEarning :=
  { total_earned_usd := 0, total_earned_luna := 0, partitions_used := 0,
    max_partitions := s.EARNING_PARTITIONS_COUNT, is_daily_limit_reached := false }

/-- A fresh `EarningPartition` row as created by `get_or_create_partition`. -/
def newPartition (s : Settings) : EarningPartition :=
  { earned_usd := 0, earned_luna := 0, clicks_count := 0,
    max_clicks := s.MAX_CLICKS_PER_PARTITION, is_partition_full := false,
    partition_start_time := none, partition_end_time := none }

/-- `get_or_create_daily_earning` (lines 26–50): returns the existing row, or
creates and commits a new one. -/
def getOrCreateDaily (s : Settings) (st : DayState) : DailyEarning × DayState :=
  match st.daily with
  | some d => (d, st)
  | none => (newDaily s, { st with daily := some (newDaily s) })

/-- `get_or_create_partition` (lines 52–86). -/
def getOrCreatePartition (s : Settings) (st : DayState) (pn : ℕ) :
    EarningPartition × DayState :=
  match lookupPartition st.partitions pn with
  | some p => (p, st)
  | none =>
    (newPartition s,
     { st with partitions := setPartition st.partitions pn (newPartition s) })

/-- `calculate_current_partition` (lines 88–95):
`min(seconds_since_midnight // SECONDS_PER_PARTITION + 1, EARNING_PARTITIONS_COUNT)`. -/
def calculate_current_partition (s : Settings) (t : TimeOfDay) : ℕ :=
  min (secondsSinceMidnight t / s.SECONDS_PER_PARTITION + 1)
    s.EARNING_PARTITIONS_COUNT

/-- `calculate_partition_end_time` (lines 105–111): builds a time-of-day from
`partition_number * SECONDS_PER_PARTITION`.  Python's
`time().replace(hour=..., minute=...)` raises `ValueError` unless
`0 ≤ hour ≤ 23` and `0 ≤ minute ≤ 59`; `none` models that exception. -/
def calculate_partition_end_time (s : Settings) (partition_number : ℕ) :
    Option TimeOfDay :=
  let end_seconds := partition_number * s.SECONDS_PER_PARTITION
  let end_hour := end_seconds / 3600
  let end_minute := (end_seconds % 3600) / 60
  if end_hour ≤ 23 ∧ end_minute ≤ 59 then
    some { hour := end_hour, minute := end_minute, second := 0 }
  else none

/-- The rejection / success messages returned by `can_user_earn_in_partition`
and `process_click_earning` (their format-string texts, as symbols). -/
inductive Msg where
  | dailyLimitReached
  | partitionFull (n : ℕ)
  | partitionMaxClicks (n : ℕ)
  | partitionEarningLimit (n : ℕ)
  | noEarnings
  | success
deriving Repr, DecidableEq

/-- `can_user_earn_in_partition` (lines 113–146), with the `(can_earn, message)`
pair collapsed to `none` when earning is allowed and `some reason` when not
(the success-side messages are discarded by the caller). -/
def canUserEarnInPartition (s : Settings) (st : DayState) (pn : ℕ) : Option Msg :=
  match lookupPartition st.partitions pn with
  | none => none
  | some p =>
    if p.is_partition_full then some (Msg.partitionFull pn)
    else if p.max_clicks ≤ p.clicks_count then some (Msg.partitionMaxClicks pn)
    else if s.EARNING_PER_PARTITION_USD ≤ p.earned_usd then
      some (Msg.partitionEarningLimit pn)
    else none

/-- The `(success, earned_usd, earned_luna, message)` tuple returned by
`process_click_earning`. -/
structure ClickResult where
  success : Bool
  earned_usd : ℚ
  earned_luna : ℤ
  message : Msg
deriving Repr, DecidableEq

/-- A rejection tuple `(False, 0.0, 0, message)`. -/
def reject (m : Msg) : ClickResult :=
  { success := false, earned_usd := 0, earned_luna := 0, message := m }

/-- The success tuple `(True, earned_usd, earned_luna, "Earning processed successfully")`. -/
def accept (usd : ℚ) (luna : ℤ) : ClickResult :=
  { success := true, earned_usd := usd, earned_luna := luna, message := Msg.success }

/-- Unhandled Python exceptions that `process_click_earning` can raise. -/
inductive PyError where
  | zeroDivisionError
deriving Repr, DecidableEq

/-- Outcome of one `process_click_earning` call: a returned tuple with the
committed post-state, or a raised exception with the state as committed at the
raise point (the get-or-create commits persist either way). -/
inductive ClickOutcome where
  | ok (r : ClickResult) (st : DayState)
  | exn (e : PyError) (st : DayState)
deriving Repr, DecidableEq

/-- The post-state of an outcome. -/
def outState : ClickOutcome → DayState
  | ClickOutcome.ok _ st => st
  | ClickOutcome.exn _ st => st

/-- The returned tuple of a normally-returning outcome (junk on `exn`). -/
def resultOf : ClickOutcome → ClickResult
  | ClickOutcome.ok r _ => r
  | ClickOutcome.exn _ _ => reject Msg.noEarnings

/-- Line 184: `energy_multiplier = min(energy_consumed / 100, 2.0)`;
line 185: `earned_usd = 0.01 * energy_multiplier`. -/
def rawEarned (energy_consumed : ℤ) : ℚ :=
  (1/100) * min ((energy_consumed : ℚ) / 100) 2

/-- Lines 188–189: clamp a candidate earning to the partition's remaining
USD budget. -/
def clampPartition (s : Settings) (p : EarningPartition) (e : ℚ) : ℚ :=
  if s.EARNING_PER_PARTITION_USD < p.earned_usd + e then
    max 0 (s.EARNING_PER_PARTITION_USD - p.earned_usd)
  else e

/-- Lines 192–193: clamp a candidate earning to the day's remaining USD budget. -/
def clampDaily (s : Settings) (d : DailyEarning) (e : ℚ) : ℚ :=
  if s.DAILY_EARNING_LIMIT_USD < d.total_earned_usd + e then
    max 0 (s.DAILY_EARNING_LIMIT_USD - d.total_earned_usd)
  else e

/-- Lines 202–210: the partition after an accepted click (`+=` updates,
then the fullness check stamping `is_partition_full` / `partition_end_time`). -/
def updatedPartition (s : Settings) (t : TimeOfDay) (p : EarningPartition)
    (earned : ℚ) (luna : ℤ) : EarningPartition :=
  let p1 := { p with earned_usd := p.earned_usd + earned,
                     earned_luna := p.earned_luna + luna,
                     clicks_count := p.clicks_count + 1 }
  if p1.max_clicks ≤ p1.clicks_count ∨ s.EARNING_PER_PARTITION_USD ≤ p1.earned_usd
  then { p1 with is_partition_full := true, partition_end_time := some t }
  else p1

/-- Lines 213–219: the daily record after an accepted click. -/
def updatedDaily (s : Settings) (d : DailyEarning) (earned : ℚ) (luna : ℤ) :
    DailyEarning :=
  let d1 := { d with total_earned_usd := d.total_earned_usd + earned,
                     total_earned_luna := d.total_earned_luna + luna }
  if s.DAILY_EARNING_LIMIT_USD ≤ d1.total_earned_usd then
    { d1 with is_daily_limit_reached := true }
  else d1

/-- Lines 201–240: all mutations of an accepted click — partition row, daily
row, appended history entry, and the user's balance — as one committed state. -/
def applyClick (s : Settings) (st : DayState) (t : TimeOfDay)
    (energy_consumed : ℤ) (luna_price : ℚ) (pn : ℕ)
    (p : EarningPartition) (d : DailyEarning) (earned : ℚ) (luna : ℤ) : DayState :=
  { daily := some (updatedDaily s d earned luna),
    partitions := setPartition st.partitions pn (updatedPartition s t p earned luna),
    history := st.history ++
      [{ partition_number := pn, click_timestamp := t, earned_usd := earned,
         earned_luna := luna, luna_price_at_click := luna_price,
         energy_consumed := energy_consumed }],
    balance := st.balance + luna }

/-- Lines 183–193 combined: the USD amount an accepted click adds, after the
energy multiplier and both clamps. -/
def clampedEarned (s : Settings) (d : DailyEarning) (p : EarningPartition)
    (energy_consumed : ℤ) : ℚ :=
  clampDaily s d (clampPartition s p (rawEarned energy_consumed))

/-- Line 199: `earned_luna = int((earned_usd / luna_price) * 1000000)`. -/
def lunaFromUsd (earned : ℚ) (luna_price : ℚ) : ℤ :=
  pyInt (earned / luna_price * 1000000)

/-- `process_click_earning` (lines 148–244) for one user on one date, at
wall-clock time `t` within that date.  Line 199,
`int((earned_usd / luna_price) * 1000000)`, raises `ZeroDivisionError` when
`luna_price = 0`; there is no other validation of the price. -/
def process_click_earning (s : Settings) (st : DayState) (t : TimeOfDay)
    (energy_consumed : ℤ) (luna_price : ℚ) : ClickOutcome :=
  let gd := getOrCreateDaily s st
  let daily := gd.1
  let st₁ := gd.2
  if daily.is_daily_limit_reached then
    ClickOutcome.ok (reject Msg.dailyLimitReached) st₁
  else
    let pn := calculate_current_partition s t
    match canUserEarnInPartition s st₁ pn with
    | some m => ClickOutcome.ok (reject m) st₁
    | none =>
      let gp := getOrCreatePartition s st₁ pn
      let partition := gp.1
      let st₂ := gp.2
      let earned := clampedEarned s daily partition energy_consumed
      if earned ≤ 0 then ClickOutcome.ok (reject Msg.noEarnings) st₂
      else if luna_price = 0 then ClickOutcome.exn PyError.zeroDivisionError st₂
      else
        let luna := lunaFromUsd earned luna_price
        ClickOutcome.ok (accept earned luna)
          (applyClick s st₂ t energy_consumed luna_price pn partition daily earned luna)

/-- One call of `process_click_earning`, as it enters a sequence. -/
structure Click where
  t : TimeOfDay
  energy_consumed : ℤ
  luna_price : ℚ
deriving Repr, DecidableEq

/-- A sequence of `process_click_earning` calls for the same user and date
(consecutive HTTP requests; an exception aborts its own call only). -/
def runClicks (s : Settings) : DayState → List Click → DayState
  | st, [] => st
  | st, c :: rest =>
    runClicks s (outState (process_click_earning s st c.t c.energy_consumed c.luna_price)) rest

/-- The daily record's `total_earned_usd` (0 when no record exists yet). -/
def dailyUsdVal (st : DayState) : ℚ :=
  match st.daily with
  | some d => d.total_earned_usd
  | none => 0

/-- The daily record's `total_earned_luna` (0 when no record exists yet). -/
def dailyLunaVal (st : DayState) : ℤ :=
  match st.daily with
  | some d => d.total_earned_luna
  | none => 0

/-- The daily record's `partitions_used` column (0 when no record exists). -/
def partitionsUsedVal (st : DayState) : ℕ :=
  match st.daily with
  | some d => d.partitions_used
  | none => 0

/-- The number of distinct partitions that received at least one accepted
click, read off the append-only history. -/
def touchedPartitions (st : DayState) : ℕ :=
  ((st.history.map EarningHistory.partition_number).dedup).length

/-- The committed state after a first click at midnight with
`energy_consumed = 100` and price 1 (the worked example used by several
witnesses below). -/
def postStateOneClick : DayState :=
  { daily := some { total_earned_usd := 1/100, total_earned_luna := 10000,
                    partitions_used := 0, max_partitions := 6,
                    is_daily_limit_reached := false },
    partitions := [(1, { earned_usd := 1/100, earned_luna := 10000,
                         clicks_count := 1, max_clicks := 250,
                         is_partition_full := false,
                         partition_start_time := none,
                         partition_end_time := none })],
    history := [{ partition_number := 1, click_timestamp := ⟨0, 0, 0⟩,
                  earned_usd := 1/100, earned_luna := 10000,
                  luna_price_at_click := 1, energy_consumed := 100 }],
    balance := 10000 }

example :
    process_click_earning defaultSettings emptyState ⟨0, 0, 0⟩ 100 1 =
      ClickOutcome.ok (accept (1/100) 10000) postStateOneClick := by
  with_unfolding_all rfl

lemma lookupPartition_setPartition_self (ps : List (ℕ × EarningPartition))
    (pn : ℕ) (p : EarningPartition) :
    lookupPartition (setPartition ps pn p) pn = some p := by
  induction ps with
  | nil => simp [setPartition, lookupPartition]
  | cons kv rest ih =>
    obtain ⟨k, v⟩ := kv
    by_cases hk : k = pn
    · simp [setPartition, lookupPartition, hk]
    · simp [setPartition, lookupPartition, hk, ih]

lemma updatedPartition_earned_usd (s : Settings) (t : TimeOfDay)
    (p : EarningPartition) (earned : ℚ) (luna : ℤ) :
    (updatedPartition s t p earned luna).earned_usd = p.earned_usd + earned := by
  simp only [updatedPartition]
  split <;> rfl

lemma updatedPartition_full_of_cap (s : Settings) (t : TimeOfDay)
    (p : EarningPartition) (earned : ℚ) (luna : ℤ)
    (h : s.EARNING_PER_PARTITION_USD ≤ p.earned_usd + earned) :
    (updatedPartition s t p earned luna).is_partition_full = true := by
  simp only [updatedPartition]
  rw [if_pos (Or.inr h)]

lemma updatedDaily_total_usd (s : Settings) (d : DailyEarning)
    (earned : ℚ) (luna : ℤ) :
    (updatedDaily s d earned luna).total_earned_usd = d.total_earned_usd + earned := by
  simp only [updatedDaily]
  split <;> rfl

lemma updatedDaily_total_luna (s : Settings) (d : DailyEarning)
    (earned : ℚ) (luna : ℤ) :
    (updatedDaily s d earned luna).total_earned_luna = d.total_earned_luna + luna := by
  simp only [updatedDaily]
  split <;> rfl

lemma updatedDaily_flag_of_cap (s : Settings) (d : DailyEarning)
    (earned : ℚ) (luna : ℤ)
    (h : s.DAILY_EARNING_LIMIT_USD ≤ d.total_earned_usd + earned) :
    (updatedDaily s d earned luna).is_daily_limit_reached = true := by
  simp only [updatedDaily]
  rw [if_pos h]

lemma updatedDaily_partitions_used (s : Settings) (d : DailyEarning)
    (earned : ℚ) (luna : ℤ) :
    (updatedDaily s d earned luna).partitions_used = d.partitions_used := by
  simp only [updatedDaily]
  split <;> rfl

/-- A positive clamped earning fits in the partition's remaining budget. -/
lemma add_clampedEarned_le_partition_cap (s : Settings) (d : DailyEarning)
    (p : EarningPartition) (e : ℤ)
    (hpos : 0 < clampedEarned s d p e) :
    p.earned_usd + clampedEarned s d p e ≤ s.EARNING_PER_PARTITION_USD := by
  unfold clampedEarned clampDaily clampPartition at hpos ⊢
  by_cases h1 : s.EARNING_PER_PARTITION_USD < p.earned_usd + rawEarned e
  · rw [if_pos h1] at hpos ⊢
    by_cases h2 : s.DAILY_EARNING_LIMIT_USD <
        d.total_earned_usd + max 0 (s.EARNING_PER_PARTITION_USD - p.earned_usd)
    · rw [if_pos h2] at hpos ⊢
      rcases le_or_lt (s.DAILY_EARNING_LIMIT_USD - d.total_earned_usd) 0 with h3 | h3
      · rw [max_eq_left h3] at hpos
        exact absurd hpos (lt_irrefl 0)
      · rw [max_eq_right h3.le] at *
        rcases le_or_lt (s.EARNING_PER_PARTITION_USD - p.earned_usd) 0 with h4 | h4
        · rw [max_eq_left h4] at h2
          linarith
        · rw [max_eq_right h4.le] at h2
          linarith
    · rw [if_neg h2] at hpos ⊢
      rcases le_or_lt (s.EARNING_PER_PARTITION_USD - p.earned_usd) 0 with h4 | h4
      · rw [max_eq_left h4] at hpos
        exact absurd hpos (lt_irrefl 0)
      · rw [max_eq_right h4.le]
        linarith
  · rw [if_neg h1] at hpos ⊢
    by_cases h2 : s.DAILY_EARNING_LIMIT_USD < d.total_earned_usd + rawEarned e
    · rw [if_pos h2] at hpos ⊢
      rcases le_or_lt (s.DAILY_EARNING_LIMIT_USD - d.total_earned_usd) 0 with h3 | h3
      · rw [max_eq_left h3] at hpos
        exact absurd hpos (lt_irrefl 0)
      · rw [max_eq_right h3.le]
        have h5 := not_lt.mp h1
        linarith
    · rw [if_neg h2]
      exact not_lt.mp h1

/-- A positive clamped earning fits in the day's remaining budget. -/
lemma add_clampedEarned_le_daily_cap (s : Settings) (d : DailyEarning)
    (p : EarningPartition) (e : ℤ)
    (hpos : 0 < clampedEarned s d p e) :
    d.total_earned_usd + clampedEarned s d p e ≤ s.DAILY_EARNING_LIMIT_USD := by
  unfold clampedEarned clampDaily clampPartition at hpos ⊢
  by_cases h1 : s.EARNING_PER_PARTITION_USD < p.earned_usd + rawEarned e
  · rw [if_pos h1] at hpos ⊢
    by_cases h2 : s.DAILY_EARNING_LIMIT_USD <
        d.total_earned_usd + max 0 (s.EARNING_PER_PARTITION_USD - p.earned_usd)
    · rw [if_pos h2] at hpos ⊢
      rcases le_or_lt (s.DAILY_EARNING_LIMIT_USD - d.total_earned_usd) 0 with h3 | h3
      · rw [max_eq_left h3] at hpos
        exact absurd hpos (lt_irrefl 0)
      · rw [max_eq_right h3.le]
        linarith
    · rw [if_neg h2]
      exact not_lt.mp h2
  · rw [if_neg h1] at hpos ⊢
    by_cases h2 : s.DAILY_EARNING_LIMIT_USD < d.total_earned_usd + rawEarned e
    · rw [if_pos h2] at hpos ⊢
      rcases le_or_lt (s.DAILY_EARNING_LIMIT_USD - d.total_earned_usd) 0 with h3 | h3
      · rw [max_eq_left h3] at hpos
        exact absurd hpos (lt_irrefl 0)
      · rw [max_eq_right h3.le]
        linarith
    · rw [if_neg h2]
      exact not_lt.mp h2

/-- Characterisation: a call that finds the daily limit flag set rejects with
the daily-limit reason and leaves the store untouched. -/
lemma process_click_daily_limit (s : Settings) (st : DayState) (t : TimeOfDay)
    (e : ℤ) (price : ℚ) (d : DailyEarning)
    (hd : st.daily = some d) (hf : d.is_daily_limit_reached = true) :
    process_click_earning s st t e price =
      ClickOutcome.ok (reject Msg.dailyLimitReached) st := by
  simp [process_click_earning, getOrCreateDaily, hd, hf]

/-- Characterisation: a call whose partition check fails rejects with that
reason and leaves the store untouched. -/
lemma process_click_partition_reject (s : Settings) (st : DayState)
    (t : TimeOfDay) (e : ℤ) (price : ℚ) (d : DailyEarning) (m : Msg)
    (hd : st.daily = some d) (hf : d.is_daily_limit_reached = false)
    (hcan : canUserEarnInPartition s st (calculate_current_partition s t) = some m) :
    process_click_earning s st t e price = ClickOutcome.ok (reject m) st := by
  simp [process_click_earning, getOrCreateDaily, hd, hf, hcan]

/-- Characterisation of an accepted click on an existing daily record and
existing partition. -/
lemma process_click_accept (s : Settings) (st : DayState) (t : TimeOfDay)
    (e : ℤ) (price : ℚ) (d : DailyEarning) (p : EarningPartition)
    (hd : st.daily = some d) (hf : d.is_daily_limit_reached = false)
    (hp : lookupPartition st.partitions (calculate_current_partition s t) = some p)
    (hfull : p.is_partition_full = false)
    (hclicks : p.clicks_count < p.max_clicks)
    (hearn : p.earned_usd < s.EARNING_PER_PARTITION_USD)
    (hpos : 0 < clampedEarned s d p e)
    (hprice : price ≠ 0) :
    process_click_earning s st t e price =
      ClickOutcome.ok
        (accept (clampedEarned s d p e) (lunaFromUsd (clampedEarned s d p e) price))
        (applyClick s st t e price (calculate_current_partition s t) p d
          (clampedEarned s d p e) (lunaFromUsd (clampedEarned s d p e) price)) := by
  simp [process_click_earning, getOrCreateDaily, hd, hf, canUserEarnInPartition,
    hp, hfull, not_le.mpr hclicks, not_le.mpr hearn, getOrCreatePartition,
    not_le.mpr hpos, hprice]

/-- Claim C1: after any `process_click_earning` call that returns success, the
addressed partition's `earned_usd` is at most the per-partition USD cap and the
daily record's `total_earned_usd` is at most the daily USD cap, and equality
with a cap implies the corresponding full/reached flag is set.  Proved for
every pre-state, hence in particular for every reachable one. -/
theorem click_budget_conservation (s : Settings) (st : DayState) (t : TimeOfDay)
    (e : ℤ) (price : ℚ) (r : ClickResult) (st' : DayState)
    (h : process_click_earning s st t e price = ClickOutcome.ok r st')
    (hs : r.success = true) :
    ∃ d p, st'.daily = some d ∧
      lookupPartition st'.partitions (calculate_current_partition s t) = some p ∧
      p.earned_usd ≤ s.EARNING_PER_PARTITION_USD ∧
      (p.earned_usd = s.EARNING_PER_PARTITION_USD → p.is_partition_full = true) ∧
      d.total_earned_usd ≤ s.DAILY_EARNING_LIMIT_USD ∧
      (d.total_earned_usd = s.DAILY_EARNING_LIMIT_USD →
        d.is_daily_limit_reached = true) := by
  simp only [process_click_earning] at h
  split at h
  · simp only [ClickOutcome.ok.injEq] at h
    obtain ⟨hr, _⟩ := h
    rw [← hr] at hs
    simp [reject] at hs
  · split at h
    · simp only [ClickOutcome.ok.injEq] at h
      obtain ⟨hr, _⟩ := h
      rw [← hr] at hs
      simp [reject] at hs
    · split at h
      · simp only [ClickOutcome.ok.injEq] at h
        obtain ⟨hr, _⟩ := h
        rw [← hr] at hs
        simp [reject] at hs
      · split at h
        · exact ClickOutcome.noConfusion h
        · rename_i hne _
          have hpos := not_le.mp hne
          simp only [ClickOutcome.ok.injEq] at h
          obtain ⟨_, hst⟩ := h
          rw [← hst]
          refine ⟨_, _, rfl, lookupPartition_setPartition_self _ _ _, ?_, ?_, ?_, ?_⟩
          · rw [updatedPartition_earned_usd]
            exact add_clampedEarned_le_partition_cap _ _ _ _ hpos
          · intro heq
            apply updatedPartition_full_of_cap
            rw [updatedPartition_earned_usd] at heq
            exact heq.ge
          · rw [updatedDaily_total_usd]
            exact add_clampedEarned_le_daily_cap _ _ _ _ hpos
          · intro heq
            apply updatedDaily_flag_of_cap
            rw [updatedDaily_total_usd] at heq
            exact heq.ge

/-- Witness for C1: the theorem applied to a concrete first click of the day
(energy 100, price 1), whose post-state is `postStateOneClick`. -/
theorem click_budget_conservation_witness :
    ∃ d p, postStateOneClick.daily = some d ∧
      lookupPartition postStateOneClick.partitions
        (calculate_current_partition defaultSettings ⟨0, 0, 0⟩) = some p ∧
      p.earned_usd ≤ defaultSettings.EARNING_PER_PARTITION_USD ∧
      (p.earned_usd = defaultSettings.EARNING_PER_PARTITION_USD →
        p.is_partition_full = true) ∧
      d.total_earned_usd ≤ defaultSettings.DAILY_EARNING_LIMIT_USD ∧
      (d.total_earned_usd = defaultSettings.DAILY_EARNING_LIMIT_USD →
        d.is_daily_limit_reached = true) :=
  click_budget_conservation defaultSettings emptyState ⟨0, 0, 0⟩ 100 1
    (accept (1/100) 10000) postStateOneClick (by with_unfolding_all rfl) rfl

/-- A store whose daily record has the daily limit flag set (used as a witness
input below). -/
def stFlagged : DayState :=
  { daily := some { total_earned_usd := 30, total_earned_luna := 3000000,
                    partitions_used := 0, max_partitions := 6,
                    is_daily_limit_reached := true },
    partitions := [], history := [], balance := 3000000 }

/-- Claim C4: when today's daily record has `is_daily_limit_reached = true`,
`process_click_earning` returns the daily-limit rejection for any
`energy_consumed` and any price, and the store (daily record, partitions,
history, balance) is unchanged. -/
theorem daily_limit_rejection_pure (s : Settings) (st : DayState) (t : TimeOfDay)
    (e : ℤ) (price : ℚ) (d : DailyEarning)
    (hd : st.daily = some d) (hf : d.is_daily_limit_reached = true) :
    process_click_earning s st t e price =
      ClickOutcome.ok (reject Msg.dailyLimitReached) st :=
  process_click_daily_limit s st t e price d hd hf

/-- Witness for C4: the theorem applied to `stFlagged` with an arbitrary
energy and price. -/
theorem daily_limit_rejection_pure_witness :
    process_click_earning defaultSettings stFlagged ⟨5, 0, 0⟩ 100 1 =
      ClickOutcome.ok (reject Msg.dailyLimitReached) stFlagged :=
  daily_limit_rejection_pure defaultSettings stFlagged ⟨5, 0, 0⟩ 100 1 _ rfl rfl

/-- Claim C5: the addressing function returns
`min(seconds_since_midnight / seconds_per_partition + 1, max_partitions)`,
which lies in `[1, max_partitions]` for every time of day and every valid
configuration (at least one partition, a positive partition length). -/
theorem partition_addressing_range (s : Settings) (t : TimeOfDay)
    (hcount : 1 ≤ s.EARNING_PARTITIONS_COUNT)
    (hspp : 0 < s.SECONDS_PER_PARTITION) :
    calculate_current_partition s t =
      min (secondsSinceMidnight t / s.SECONDS_PER_PARTITION + 1)
        s.EARNING_PARTITIONS_COUNT ∧
    1 ≤ calculate_current_partition s t ∧
    calculate_current_partition s t ≤ s.EARNING_PARTITIONS_COUNT := by
  refine ⟨rfl, ?_, min_le_right _ _⟩
  exact le_min (Nat.succ_le_succ (Nat.zero_le _)) hcount

/-- Witness for C5: the theorem applied at 13:30:00 under the default
configuration (partition 4). -/
theorem partition_addressing_range_witness :
    calculate_current_partition defaultSettings ⟨13, 30, 0⟩ =
      min (secondsSinceMidnight ⟨13, 30, 0⟩ / defaultSettings.SECONDS_PER_PARTITION + 1)
        defaultSettings.EARNING_PARTITIONS_COUNT ∧
    1 ≤ calculate_current_partition defaultSettings ⟨13, 30, 0⟩ ∧
    calculate_current_partition defaultSettings ⟨13, 30, 0⟩ ≤
      defaultSettings.EARNING_PARTITIONS_COUNT :=
  partition_addressing_range defaultSettings ⟨13, 30, 0⟩ (by decide) (by decide)

lemma getOrCreateDaily_dailyUsdVal (s : Settings) (st : DayState) :
    dailyUsdVal (getOrCreateDaily s st).2 = dailyUsdVal st := by
  cases h : st.daily <;> simp [getOrCreateDaily, h, dailyUsdVal, newDaily]

lemma getOrCreateDaily_dailyLunaVal (s : Settings) (st : DayState) :
    dailyLunaVal (getOrCreateDaily s st).2 = dailyLunaVal st := by
  cases h : st.daily <;> simp [getOrCreateDaily, h, dailyLunaVal, newDaily]

lemma getOrCreateDaily_partitionsUsedVal (s : Settings) (st : DayState) :
    partitionsUsedVal (getOrCreateDaily s st).2 = partitionsUsedVal st := by
  cases h : st.daily <;> simp [getOrCreateDaily, h, partitionsUsedVal, newDaily]

lemma getOrCreateDaily_fst_usd (s : Settings) (st : DayState) :
    (getOrCreateDaily s st).1.total_earned_usd = dailyUsdVal st := by
  cases h : st.daily <;> simp [getOrCreateDaily, h, dailyUsdVal, newDaily]

lemma getOrCreateDaily_fst_luna (s : Settings) (st : DayState) :
    (getOrCreateDaily s st).1.total_earned_luna = dailyLunaVal st := by
  cases h : st.daily <;> simp [getOrCreateDaily, h, dailyLunaVal, newDaily]

lemma getOrCreateDaily_fst_partitionsUsed (s : Settings) (st : DayState) :
    (getOrCreateDaily s st).1.partitions_used = partitionsUsedVal st := by
  cases h : st.daily <;> simp [getOrCreateDaily, h, partitionsUsedVal, newDaily]

lemma getOrCreatePartition_daily (s : Settings) (st : DayState) (pn : ℕ) :
    ((getOrCreatePartition s st pn).2).daily = st.daily := by
  cases h : lookupPartition st.partitions pn <;> simp [getOrCreatePartition, h]

lemma getOrCreatePartition_dailyUsdVal (s : Settings) (st : DayState) (pn : ℕ) :
    dailyUsdVal ((getOrCreatePartition s st pn).2) = dailyUsdVal st := by
  unfold dailyUsdVal
  rw [getOrCreatePartition_daily]

lemma getOrCreatePartition_dailyLunaVal (s : Settings) (st : DayState) (pn : ℕ) :
    dailyLunaVal ((getOrCreatePartition s st pn).2) = dailyLunaVal st := by
  unfold dailyLunaVal
  rw [getOrCreatePartition_daily]

lemma getOrCreatePartition_partitionsUsedVal (s : Settings) (st : DayState) (pn : ℕ) :
    partitionsUsedVal ((getOrCreatePartition s st pn).2) = partitionsUsedVal st := by
  unfold partitionsUsedVal
  rw [getOrCreatePartition_daily]

lemma pyInt_nonneg (q : ℚ) (h : 0 ≤ q) : 0 ≤ pyInt q := by
  unfold pyInt
  rw [if_pos h]
  exact Int.floor_nonneg.mpr h

lemma dailyUsdVal_mk (d : DailyEarning) (ps : List (ℕ × EarningPartition))
    (hs : List EarningHistory) (b : ℤ) :
    dailyUsdVal ⟨some d, ps, hs, b⟩ = d.total_earned_usd := rfl

lemma dailyLunaVal_mk (d : DailyEarning) (ps : List (ℕ × EarningPartition))
    (hs : List EarningHistory) (b : ℤ) :
    dailyLunaVal ⟨some d, ps, hs, b⟩ = d.total_earned_luna := rfl

lemma partitionsUsedVal_mk (d : DailyEarning) (ps : List (ℕ × EarningPartition))
    (hs : List EarningHistory) (b : ℤ) :
    partitionsUsedVal ⟨some d, ps, hs, b⟩ = d.partitions_used := rfl

/-- One `process_click_earning` call never decreases `total_earned_usd`. -/
lemma dailyUsdVal_step_le (s : Settings) (st : DayState) (t : TimeOfDay)
    (e : ℤ) (price : ℚ) :
    dailyUsdVal st ≤ dailyUsdVal (outState (process_click_earning s st t e price)) := by
  simp only [process_click_earning]
  split
  · simp only [outState]
    exact (getOrCreateDaily_dailyUsdVal s st).ge
  · split
    · simp only [outState]
      exact (getOrCreateDaily_dailyUsdVal s st).ge
    · split
      · simp only [outState]
        rw [getOrCreatePartition_dailyUsdVal, getOrCreateDaily_dailyUsdVal]
      · split
        · simp only [outState]
          rw [getOrCreatePartition_dailyUsdVal, getOrCreateDaily_dailyUsdVal]
        · rename_i hne _
          have hpos := not_le.mp hne
          simp only [outState, applyClick, dailyUsdVal_mk]
          rw [updatedDaily_total_usd, getOrCreateDaily_fst_usd]
          linarith

/-- With a positive price, one `process_click_earning` call never decreases
`total_earned_luna`. -/
lemma dailyLunaVal_step_le (s : Settings) (st : DayState) (t : TimeOfDay)
    (e : ℤ) (price : ℚ) (hprice : 0 < price) :
    dailyLunaVal st ≤ dailyLunaVal (outState (process_click_earning s st t e price)) := by
  simp only [process_click_earning]
  split
  · simp only [outState]
    exact (getOrCreateDaily_dailyLunaVal s st).ge
  · split
    · simp only [outState]
      exact (getOrCreateDaily_dailyLunaVal s st).ge
    · split
      · simp only [outState]
        rw [getOrCreatePartition_dailyLunaVal, getOrCreateDaily_dailyLunaVal]
      · split
        · simp only [outState]
          rw [getOrCreatePartition_dailyLunaVal, getOrCreateDaily_dailyLunaVal]
        · rename_i hne _
          have hpos := not_le.mp hne
          have hluna : 0 ≤ lunaFromUsd
              (clampedEarned s (getOrCreateDaily s st).1
                (getOrCreatePartition s (getOrCreateDaily s st).2
                  (calculate_current_partition s t)).1 e) price := by
            apply pyInt_nonneg
            have hdiv : 0 < clampedEarned s (getOrCreateDaily s st).1
                (getOrCreatePartition s (getOrCreateDaily s st).2
                  (calculate_current_partition s t)).1 e / price :=
              div_pos hpos hprice
            have := mul_nonneg hdiv.le (by norm_num : (0:ℚ) ≤ 1000000)
            exact this
          simp only [outState, applyClick, dailyLunaVal_mk]
          rw [updatedDaily_total_luna, getOrCreateDaily_fst_luna]
          omega

/-- One `process_click_earning` call never changes `partitions_used`. -/
lemma partitionsUsedVal_step (s : Settings) (st : DayState) (t : TimeOfDay)
    (e : ℤ) (price : ℚ) :
    partitionsUsedVal (outState (process_click_earning s st t e price)) =
      partitionsUsedVal st := by
  simp only [process_click_earning]
  split
  · simp only [outState]
    exact getOrCreateDaily_partitionsUsedVal s st
  · split
    · simp only [outState]
      exact getOrCreateDaily_partitionsUsedVal s st
    · split
      · simp only [outState]
        rw [getOrCreatePartition_partitionsUsedVal, getOrCreateDaily_partitionsUsedVal]
      · split
        · simp only [outState]
          rw [getOrCreatePartition_partitionsUsedVal, getOrCreateDaily_partitionsUsedVal]
        · simp only [outState, applyClick, partitionsUsedVal_mk]
          rw [updatedDaily_partitions_used, getOrCreateDaily_fst_partitionsUsed]

lemma dailyUsdVal_run_le (s : Settings) (calls : List Click) :
    ∀ st : DayState, dailyUsdVal st ≤ dailyUsdVal (runClicks s st calls) := by
  induction calls with
  | nil => intro st; simp [runClicks]
  | cons c rest ih =>
    intro st
    simp only [runClicks]
    exact le_trans (dailyUsdVal_step_le s st c.t c.energy_consumed c.luna_price) (ih _)

lemma dailyLunaVal_run_le (s : Settings) (calls : List Click)
    (hp : ∀ c ∈ calls, 0 < c.luna_price) :
    ∀ st : DayState, dailyLunaVal st ≤ dailyLunaVal (runClicks s st calls) := by
  induction calls with
  | nil => intro st; simp [runClicks]
  | cons c rest ih =>
    intro st
    simp only [runClicks]
    refine le_trans
      (dailyLunaVal_step_le s st c.t c.energy_consumed c.luna_price
        (hp c (List.mem_cons_self c rest))) ?_
    exact ih (fun c' hc' => hp c' (List.mem_cons_of_mem c hc')) _

/-- Claim C3 (amended): for a fixed user and date, `total_earned_usd` is
non-decreasing across ANY sequence of `process_click_earning` calls
(unconditionally), and `total_earned_tokens` is non-decreasing provided every
call's price is positive (with a non-positive price the code credits negative
token amounts, see the counterexample). -/
theorem totals_monotone (s : Settings) (st : DayState) (calls : List Click) :
    dailyUsdVal st ≤ dailyUsdVal (runClicks s st calls) ∧
    ((∀ c ∈ calls, 0 < c.luna_price) →
      dailyLunaVal st ≤ dailyLunaVal (runClicks s st calls)) :=
  ⟨dailyUsdVal_run_le s calls st, fun hp => dailyLunaVal_run_le s calls hp st⟩

/-- Witness for C3: the theorem applied to two concrete clicks from the empty
store — the USD conjunct at non-positive price `-1`, where it still holds,
and the token conjunct at positive price 1, discharging its hypothesis. -/
theorem totals_monotone_witness :
    dailyUsdVal emptyState ≤
      dailyUsdVal (runClicks defaultSettings emptyState
        [⟨⟨0, 0, 0⟩, 100, -1⟩, ⟨⟨0, 0, 0⟩, 100, -1⟩]) ∧
    dailyLunaVal emptyState ≤
      dailyLunaVal (runClicks defaultSettings emptyState
        [⟨⟨0, 0, 0⟩, 100, 1⟩, ⟨⟨0, 0, 0⟩, 100, 1⟩]) :=
  ⟨(totals_monotone defaultSettings emptyState
      [⟨⟨0, 0, 0⟩, 100, -1⟩, ⟨⟨0, 0, 0⟩, 100, -1⟩]).1,
   (totals_monotone defaultSettings emptyState
      [⟨⟨0, 0, 0⟩, 100, 1⟩, ⟨⟨0, 0, 0⟩, 100, 1⟩]).2
    (by
      intro c hc
      rcases List.mem_cons.mp hc with h | h
      · rw [h]; norm_num
      · rw [List.mem_singleton.mp h]; norm_num)⟩

/-- Counterexample for C3 as stated: with price `-1` each call returns success
(the code performs no price validation), yet `total_earned_luna` strictly
decreases from the first to the second click. -/
theorem totals_monotone_counterexample :
    resultOf (process_click_earning defaultSettings emptyState
        ⟨0, 0, 0⟩ 100 (-1)) = accept (1/100) (-10000) ∧
    resultOf (process_click_earning defaultSettings
        (runClicks defaultSettings emptyState [⟨⟨0, 0, 0⟩, 100, -1⟩])
        ⟨0, 0, 0⟩ 100 (-1)) = accept (1/100) (-10000) ∧
    dailyLunaVal (runClicks defaultSettings emptyState
        [⟨⟨0, 0, 0⟩, 100, -1⟩]) = -10000 ∧
    dailyLunaVal (runClicks defaultSettings emptyState
        [⟨⟨0, 0, 0⟩, 100, -1⟩, ⟨⟨0, 0, 0⟩, 100, -1⟩]) = -20000 ∧
    (-20000 : ℤ) < -10000 := by
  refine ⟨?_, ?_, ?_, ?_, ?_⟩
  · with_unfolding_all rfl
  · with_unfolding_all rfl
  · with_unfolding_all rfl
  · with_unfolding_all rfl
  · decide

lemma partitionsUsedVal_run (s : Settings) (calls : List Click) :
    ∀ st : DayState, partitionsUsedVal (runClicks s st calls) = partitionsUsedVal st := by
  induction calls with
  | nil => intro st; simp [runClicks]
  | cons c rest ih =>
    intro st
    simp only [runClicks]
    rw [ih, partitionsUsedVal_step]

/-- Claim C9 (amended): `process_click_earning` never writes the
`partitions_used` column — after any sequence of calls it still holds its
initial value (0 for a record the service created itself), so it does not
track the number of distinct partitions touched. -/
theorem partitions_used_constant (s : Settings) (st : DayState)
    (calls : List Click) :
    partitionsUsedVal (runClicks s st calls) = partitionsUsedVal st :=
  partitionsUsedVal_run s calls st

/-- Counterexample for C9 as stated: one accepted click touches one distinct
partition, but the daily record's `partitions_used` stays 0. -/
theorem partitions_used_counterexample :
    partitionsUsedVal (runClicks defaultSettings emptyState
        [⟨⟨0, 0, 0⟩, 100, 1⟩]) = 0 ∧
    touchedPartitions (runClicks defaultSettings emptyState
        [⟨⟨0, 0, 0⟩, 100, 1⟩]) = 1 ∧
    (0 : ℕ) ≠ 1 := by
  refine ⟨?_, ?_, ?_⟩
  · with_unfolding_all rfl
  · with_unfolding_all rfl
  · decide

/-- Claim C2 evaluated on the code: with price 0 the call raises an unhandled
`ZeroDivisionError`, but only after `get_or_create_daily_earning` and
`get_or_create_partition` have already created and committed a fresh daily
record and partition (12:00 addresses partition 4); with price `-1` the call
even succeeds and credits a negative token amount.  There is no
`InvalidPrice`/`PriceUnavailable` path in the code. -/
theorem invalid_price_behaviour :
    process_click_earning defaultSettings emptyState ⟨12, 0, 0⟩ 100 0 =
      ClickOutcome.exn PyError.zeroDivisionError
        { daily := some (newDaily defaultSettings),
          partitions := [(4, newPartition defaultSettings)],
          history := [], balance := 0 } ∧
    resultOf (process_click_earning defaultSettings emptyState
        ⟨12, 0, 0⟩ 100 (-1)) = accept (1/100) (-10000) := by
  refine ⟨?_, ?_⟩
  · with_unfolding_all rfl
  · with_unfolding_all rfl

/-- Midnight, a time inside partition 1. -/
def midnight : TimeOfDay := ⟨0, 0, 0⟩

/-- One click of the C8 scenario: default configuration, price 0.5,
`energy_consumed = 200` (multiplier capped at 2.0). -/
def scenStep (st : DayState) : ClickOutcome :=
  process_click_earning defaultSettings st midnight 200 (1/2)

/-- The store after `k` scenario clicks, starting from the empty store. -/
def scenState : ℕ → DayState
  | 0 => emptyState
  | k+1 => outState (scenStep (scenState k))

/-- The history row every accepted scenario click appends. -/
def scenEntry : EarningHistory :=
  { partition_number := 1, click_timestamp := midnight, earned_usd := 1/50,
    earned_luna := 40000, luna_price_at_click := 1/2, energy_consumed := 200 }

/-- Closed form of the daily record after `k` scenario clicks. -/
def scenDaily (k : ℕ) : DailyEarning :=
  { total_earned_usd := (k : ℚ)/50, total_earned_luna := 40000*k,
    partitions_used := 0, max_partitions := 6, is_daily_limit_reached := false }

/-- Closed form of partition 1 after `k` scenario clicks. -/
def scenPartition (k : ℕ) : EarningPartition :=
  { earned_usd := (k : ℚ)/50, earned_luna := 40000*k, clicks_count := k,
    max_clicks := 250, is_partition_full := decide (250 ≤ k),
    partition_start_time := none,
    partition_end_time := if 250 ≤ k then some midnight else none }

/-- Closed form of the whole store after `k` scenario clicks (`1 ≤ k ≤ 250`). -/
def scenFull (k : ℕ) : DayState :=
  { daily := some (scenDaily k), partitions := [(1, scenPartition k)],
    history := List.replicate k scenEntry, balance := 40000*k }

lemma scen_pn : calculate_current_partition defaultSettings midnight = 1 := by
  with_unfolding_all rfl

lemma scen_rawEarned : rawEarned 200 = 1/50 := by
  unfold rawEarned
  push_cast
  norm_num

lemma scen_clampedEarned (n : ℕ) (hn : n < 250) :
    clampedEarned defaultSettings (scenDaily n) (scenPartition n) 200 = 1/50 := by
  have hc : (n : ℚ) ≤ 249 := by exact_mod_cast (by omega : n ≤ 249)
  unfold clampedEarned
  rw [scen_rawEarned]
  have hcap : ¬ (defaultSettings.EARNING_PER_PARTITION_USD <
      (scenPartition n).earned_usd + 1/50) := by
    simp only [scenPartition]
    show ¬ ((5 : ℚ) < (n : ℚ)/50 + 1/50)
    push_neg
    linarith
  unfold clampPartition
  rw [if_neg hcap]
  have hdcap : ¬ (defaultSettings.DAILY_EARNING_LIMIT_USD <
      (scenDaily n).total_earned_usd + 1/50) := by
    simp only [scenDaily]
    show ¬ ((30 : ℚ) < (n : ℚ)/50 + 1/50)
    push_neg
    linarith
  unfold clampDaily
  rw [if_neg hdcap]

lemma scen_luna : lunaFromUsd (1/50) (1/2) = 40000 := by
  with_unfolding_all rfl

/-- One scenario click on the closed-form store accepts and earns exactly
1/50 USD and 40000 token units. -/
lemma scen_step_eq (n : ℕ) (hn : n < 250) :
    scenStep (scenFull n) =
      ClickOutcome.ok (accept (1/50) 40000)
        (applyClick defaultSettings (scenFull n) midnight 200 (1/2) 1
          (scenPartition n) (scenDaily n) (1/50) 40000) := by
  have hp : lookupPartition (scenFull n).partitions
      (calculate_current_partition defaultSettings midnight) =
      some (scenPartition n) := by
    rw [scen_pn]
    simp [scenFull, lookupPartition]
  have hfull : (scenPartition n).is_partition_full = false := by
    simp only [scenPartition, decide_eq_false_iff_not]
    omega
  have hclicks : (scenPartition n).clicks_count < (scenPartition n).max_clicks := by
    simp only [scenPartition]
    omega
  have hearn : (scenPartition n).earned_usd <
      defaultSettings.EARNING_PER_PARTITION_USD := by
    simp only [scenPartition]
    show (n : ℚ)/50 < 5
    have hc : (n : ℚ) < 250 := by exact_mod_cast hn
    linarith
  have hpos : 0 < clampedEarned defaultSettings (scenDaily n) (scenPartition n) 200 := by
    rw [scen_clampedEarned n hn]
    norm_num
  have happ := process_click_accept defaultSettings (scenFull n) midnight 200 (1/2)
    (scenDaily n) (scenPartition n) rfl rfl hp hfull hclicks hearn hpos
    (by norm_num)
  rw [scen_pn, scen_clampedEarned n hn, scen_luna] at happ
  exact happ

lemma scen_applyClick (n : ℕ) (hn : n < 250) :
    applyClick defaultSettings (scenFull n) midnight 200 (1/2) 1
      (scenPartition n) (scenDaily n) (1/50) 40000 = scenFull (n+1) := by
  have hcast : (n : ℚ) ≤ 249 := by exact_mod_cast (by omega : n ≤ 249)
  have h1 : (n : ℚ)/50 + 1/50 = ((n+1 : ℕ) : ℚ)/50 := by
    push_cast
    ring
  have h2 : (40000 : ℤ)*n + 40000 = 40000*((n+1 : ℕ) : ℤ) := by
    push_cast
    ring
  have hdaily : updatedDaily defaultSettings (scenDaily n) (1/50) 40000 =
      scenDaily (n+1) := by
    have hflag : ¬ (defaultSettings.DAILY_EARNING_LIMIT_USD ≤ (n : ℚ)/50 + 1/50) := by
      show ¬ ((30 : ℚ) ≤ (n : ℚ)/50 + 1/50)
      push_neg
      linarith
    simp only [updatedDaily, scenDaily]
    rw [if_neg hflag, h1, h2]
  have hpart : updatedPartition defaultSettings midnight (scenPartition n)
      (1/50) 40000 = scenPartition (n+1) := by
    by_cases h250 : 250 ≤ n + 1
    · have hcond : 250 ≤ n + 1 ∨
          defaultSettings.EARNING_PER_PARTITION_USD ≤ (n : ℚ)/50 + 1/50 :=
        Or.inl h250
      simp only [updatedPartition, scenPartition]
      rw [if_pos hcond, h1, h2, decide_eq_true h250, if_pos h250]
    · have hcond : ¬ (250 ≤ n + 1 ∨
          defaultSettings.EARNING_PER_PARTITION_USD ≤ (n : ℚ)/50 + 1/50) := by
        push_neg
        constructor
        · omega
        · show (n : ℚ)/50 + 1/50 < 5
          have hc : (n : ℚ) ≤ 248 := by exact_mod_cast (by omega : n ≤ 248)
          linarith
      simp only [updatedPartition, scenPartition]
      rw [if_neg hcond, h1, h2, decide_eq_false (by omega : ¬ 250 ≤ n),
        decide_eq_false h250, if_neg (by omega : ¬ 250 ≤ n), if_neg h250]
  unfold applyClick scenFull
  simp only [DayState.mk.injEq]
  refine ⟨?_, ?_, ?_, ?_⟩
  · rw [hdaily]
  · rw [hpart]
    simp [setPartition]
  · show List.replicate n scenEntry ++ [scenEntry] = List.replicate (n+1) scenEntry
    exact (List.replicate_succ' n scenEntry).symm
  · push_cast
    ring

/-- Closed form of the scenario store, for `1 ≤ k ≤ 250`. -/
lemma scenState_eq (k : ℕ) (h1 : 1 ≤ k) (h250 : k ≤ 250) :
    scenState k = scenFull k := by
  induction k with
  | zero => omega
  | succ n ih =>
    rcases Nat.eq_zero_or_pos n with hz | hpos'
    · subst hz
      with_unfolding_all rfl
    · have hcf := ih (by omega) (by omega)
      show scenState (n+1) = scenFull (n+1)
      simp only [scenState]
      rw [hcf, scen_step_eq n (by omega)]
      simp only [outState]
      exact scen_applyClick n (by omega)

/-- Claim C8 (amended): in the scenario (price 0.5, default caps, energy 200
per click, all clicks in partition 1), each of the first 250 clicks is
accepted and earns exactly $0.02 = 1/50 (the history records 250 entries of
1/50 each), the 250th click brings partition 1 to exactly $5.00 with
`is_partition_full = true`, and the 251st click is rejected with no state
change — with the partition-is-full reason, since `can_user_earn_in_partition`
checks `is_partition_full` before the click-count limit. -/
theorem partition_fill_scenario :
    (scenState 250).history.map EarningHistory.earned_usd =
      List.replicate 250 (1/50) ∧
    lookupPartition (scenState 250).partitions 1 = some (scenPartition 250) ∧
    (scenPartition 250).earned_usd = 5 ∧
    (scenPartition 250).is_partition_full = true ∧
    scenStep (scenState 250) =
      ClickOutcome.ok (reject (Msg.partitionFull 1)) (scenState 250) := by
  have h := scenState_eq 250 (by omega) (by omega)
  refine ⟨?_, ?_, ?_, ?_, ?_⟩
  · rw [h]
    show (List.replicate 250 scenEntry).map EarningHistory.earned_usd = _
    rw [List.map_replicate]
    rfl
  · rw [h]
    simp [scenFull, lookupPartition]
  · show (250 : ℚ)/50 = 5
    norm_num
  · with_unfolding_all rfl
  · rw [h]
    with_unfolding_all rfl

/-- Counterexample for C8 as stated: the 251st scenario click is rejected with
the partition-is-full message, not the reached-max-clicks message the claim
names. -/
theorem partition_fill_scenario_counterexample :
    (resultOf (scenStep (scenState 250))).message = Msg.partitionFull 1 ∧
    Msg.partitionFull 1 ≠ Msg.partitionMaxClicks 1 := by
  constructor
  · rw [scenState_eq 250 (by omega) (by omega)]
    with_unfolding_all rfl
  · decide

/-- The dict cached under `energy:calc` by `calculate_energy`
(src/utils/energy_calc.py lines 30–36). -/
structure EnergyCalcData where
  current_price : ℚ
  daily_limit : ℤ
  charge_per_second : ℚ
  max_energy_per_part : ℚ
  discharge_per_click : ℚ
deriving Repr, DecidableEq

/-- `calculate_energy` (energy_calc.py lines 10–48) as a function of the
fetched price (the Redis write and its TTL are outside the model; the `None`
price check precedes this computation).  Note that only the cached
`charge_per_second` is quantized; `max_energy_per_part` and
`discharge_per_click` are computed from the raw `charge_per_second`. -/
def calculate_energy (s : Settings) (current_price : ℚ) : EnergyCalcData :=
  let daily_limit : ℤ := ⌊s.DAILY_LIMIT_USD * current_price⌋ * 10000
  let charge_per_second : ℚ := (daily_limit : ℚ) / (24 * 60 * 60)
  let max_energy_per_part := charge_per_second * s.SECONDS_MAX_RECHARGE
  let discharge_per_click := max_energy_per_part / (s.MAX_CLICKS_PER_PARTITION : ℚ)
  { current_price := current_price,
    daily_limit := daily_limit,
    charge_per_second := (⌊round3 charge_per_second * 20⌋ : ℚ) / 20,
    max_energy_per_part := max_energy_per_part,
    discharge_per_click := discharge_per_click }

/-- Claim C6 (amended): the cached parameters are a pure function of price and
configuration with `daily_limit_tokens = floor(daily_limit_usd * price) * 10000`
and the cached `charge_per_second` quantized as `floor(round(raw, 3) * 20)/20`;
but `max_energy_per_partition` (and hence `discharge_per_click`) is computed
from the raw `charge_per_second = daily_limit_tokens / 86400`, not from the
quantized value. -/
theorem energy_params_formulas (s : Settings) (price : ℚ) (hp : 0 < price) :
    (calculate_energy s price).current_price = price ∧
    (calculate_energy s price).daily_limit = ⌊s.DAILY_LIMIT_USD * price⌋ * 10000 ∧
    (calculate_energy s price).charge_per_second =
      (⌊round3 (((⌊s.DAILY_LIMIT_USD * price⌋ * 10000 : ℤ) : ℚ) / 86400) * 20⌋ : ℚ) / 20 ∧
    (calculate_energy s price).max_energy_per_part =
      ((⌊s.DAILY_LIMIT_USD * price⌋ * 10000 : ℤ) : ℚ) / 86400 * s.SECONDS_MAX_RECHARGE ∧
    (calculate_energy s price).discharge_per_click =
      (calculate_energy s price).max_energy_per_part /
        (s.MAX_CLICKS_PER_PARTITION : ℚ) := by
  refine ⟨rfl, rfl, ?_, ?_, rfl⟩
  · show (⌊round3 (((⌊s.DAILY_LIMIT_USD * price⌋ * 10000 : ℤ) : ℚ) / (24 * 60 * 60)) * 20⌋ : ℚ) / 20 = _
    norm_num
  · show ((⌊s.DAILY_LIMIT_USD * price⌋ * 10000 : ℤ) : ℚ) / (24 * 60 * 60) * s.SECONDS_MAX_RECHARGE = _
    norm_num

/-- Witness for C6 (amended) at price 1. -/
theorem energy_params_formulas_witness :
    (calculate_energy defaultSettings 1).current_price = 1 ∧
    (calculate_energy defaultSettings 1).daily_limit =
      ⌊defaultSettings.DAILY_LIMIT_USD * 1⌋ * 10000 ∧
    (calculate_energy defaultSettings 1).charge_per_second =
      (⌊round3 (((⌊defaultSettings.DAILY_LIMIT_USD * 1⌋ * 10000 : ℤ) : ℚ) / 86400) * 20⌋ : ℚ) / 20 ∧
    (calculate_energy defaultSettings 1).max_energy_per_part =
      ((⌊defaultSettings.DAILY_LIMIT_USD * 1⌋ * 10000 : ℤ) : ℚ) / 86400 *
        defaultSettings.SECONDS_MAX_RECHARGE ∧
    (calculate_energy defaultSettings 1).discharge_per_click =
      (calculate_energy defaultSettings 1).max_energy_per_part /
        (defaultSettings.MAX_CLICKS_PER_PARTITION : ℚ) :=
  energy_params_formulas defaultSettings 1 (by norm_num)

/-- Counterexample for C6 as stated: at price 0.5 the cached
`max_energy_per_part` is 18750, while the quantized `charge_per_second`
(1.7) times `seconds_max_recharge` (10800) is 18360 — so
`max_energy_per_partition ≠ charge_per_second * seconds_max_recharge` for the
cached (quantized) `charge_per_second`. -/
theorem energy_params_counterexample :
    (calculate_energy defaultSettings (1/2)).max_energy_per_part = 18750 ∧
    (calculate_energy defaultSettings (1/2)).charge_per_second *
      defaultSettings.SECONDS_MAX_RECHARGE = 18360 ∧
    (18750 : ℚ) ≠ 18360 := by
  refine ⟨?_, ?_, ?_⟩
  · with_unfolding_all rfl
  · with_unfolding_all rfl
  · norm_num

/-- A per-user energy snapshot as cached under `user:energy:{telegram_id}`
(sync_energy.py lines 44–48); `sync_at` is a Unix timestamp in seconds. -/
structure EnergySnapshot where
  balance : ℚ
  value : ℚ
  sync_at : ℤ
deriving Repr, DecidableEq

/-- The `SGetSyncBalance` response schema (schemas/user.py lines 19–32). -/
structure SGetSyncBalance where
  balance : ℚ
  value : ℚ
  sync_at : ℤ
  seconds_recharge : ℤ
  charge_per_second : ℚ
deriving Repr, DecidableEq

/-- `SGetSyncBalance.calculate_seconds_recharge` (schemas/user.py lines
26–32): elapsed seconds since the snapshot, hard-capped at 10800. -/
def calculate_seconds_recharge (now sync_at : ℤ) : ℤ :=
  let seconds := now - sync_at
  if seconds < 10800 then seconds else 10800

/-- `get_sync_energy` (sync_energy.py lines 64–98) given the cached energy
parameters (`charge_rate`, `max_energy`) and the user's cached snapshot (or
its absence). -/
def get_sync_energy (charge_rate max_energy : ℚ)
    (snap : Option EnergySnapshot) (now : ℤ) : SGetSyncBalance :=
  match snap with
  | some sn =>
    let sr := calculate_seconds_recharge now sn.sync_at
    { balance := sn.balance,
      value := min (sn.value + charge_rate * (sr : ℚ)) max_energy,
      sync_at := sn.sync_at, seconds_recharge := sr,
      charge_per_second := charge_rate }
  | none =>
    { balance := 0, value := max_energy, sync_at := now,
      seconds_recharge := 0, charge_per_second := charge_rate }

lemma calculate_seconds_recharge_eq_min (now sync_at : ℤ) :
    calculate_seconds_recharge now sync_at = min (now - sync_at) 10800 := by
  simp only [calculate_seconds_recharge]
  split
  · rename_i h
    exact (min_eq_left h.le).symm
  · rename_i h
    exact (min_eq_right (not_lt.mp h)).symm

/-- Claim C7: for a user with a cached snapshot, the returned energy value is
`min(snapshot.value + charge_per_second * min(now - sync_at, 10800),
max_energy_per_partition)` (10800 being the hard-coded recharge cap, equal to
the default `SECONDS_MAX_RECHARGE`), and in particular it never exceeds
`max_energy_per_partition`, regardless of the elapsed time. -/
theorem energy_projection_capped (charge_rate max_energy : ℚ)
    (sn : EnergySnapshot) (now : ℤ) :
    (get_sync_energy charge_rate max_energy (some sn) now).value =
      min (sn.value + charge_rate * ((min (now - sn.sync_at) 10800 : ℤ) : ℚ))
        max_energy ∧
    (get_sync_energy charge_rate max_energy (some sn) now).value ≤ max_energy := by
  constructor
  · show min (sn.value + charge_rate *
        ((calculate_seconds_recharge now sn.sync_at : ℤ) : ℚ)) max_energy = _
    rw [calculate_seconds_recharge_eq_min]
  · exact min_le_right _ _

/-- The dict returned by `get_daily_earning_status`
(daily_earning_service.py lines 246–323). -/
structure DailyStatus where
  total_earned_usd : ℚ
  total_earned_luna : ℤ
  daily_limit_usd : ℚ
  remaining_usd : ℚ
  partitions_used : ℕ
  max_partitions : ℕ
  is_daily_limit_reached : Bool
  current_partition : ℕ
  current_partition_earned_usd : ℚ
  current_partition_clicks : ℕ
  current_partition_max_clicks : ℕ
  next_partition_reset_time : Option TimeOfDay
  last_click_time : Option TimeOfDay
deriving Repr, DecidableEq

/-- `get_daily_earning_status` (lines 246–323) for today at wall-clock time
`t`.  When a daily record exists it calls `calculate_partition_end_time` for
the current partition (line 304); `none` models the `ValueError` that call
raises when the computed hour is not a valid time of day.  The most recent
history entry is the last appended one (history is ordered by click time). -/
def get_daily_earning_status (s : Settings) (st : DayState) (t : TimeOfDay) :
    Option DailyStatus :=
  match st.daily with
  | none =>
    some { total_earned_usd := 0, total_earned_luna := 0,
           daily_limit_usd := s.DAILY_EARNING_LIMIT_USD,
           remaining_usd := s.DAILY_EARNING_LIMIT_USD,
           partitions_used := 0, max_partitions := s.EARNING_PARTITIONS_COUNT,
           is_daily_limit_reached := false,
           current_partition := calculate_current_partition s t,
           current_partition_earned_usd := 0, current_partition_clicks := 0,
           current_partition_max_clicks := s.MAX_CLICKS_PER_PARTITION,
           next_partition_reset_time := none, last_click_time := none }
  | some d =>
    let pn := calculate_current_partition s t
    let part := lookupPartition st.partitions pn
    match calculate_partition_end_time s pn with
    | none => none
    | some endT =>
      some { total_earned_usd := d.total_earned_usd,
             total_earned_luna := d.total_earned_luna,
             daily_limit_usd := s.DAILY_EARNING_LIMIT_USD,
             remaining_usd := max 0 (s.DAILY_EARNING_LIMIT_USD - d.total_earned_usd),
             partitions_used := d.partitions_used,
             max_partitions := d.max_partitions,
             is_daily_limit_reached := d.is_daily_limit_reached,
             current_partition := pn,
             current_partition_earned_usd :=
               (part.map EarningPartition.earned_usd).getD 0,
             current_partition_clicks :=
               (part.map EarningPartition.clicks_count).getD 0,
             current_partition_max_clicks := s.MAX_CLICKS_PER_PARTITION,
             next_partition_reset_time :=
               if secondsSinceMidnight t < secondsSinceMidnight endT then some endT
               else none,
             last_click_time :=
               (st.history.getLast?).map EarningHistory.click_timestamp }

lemma end_time_partition_six : calculate_partition_end_time defaultSettings 6 = none := by
  with_unfolding_all rfl

/-- Claim C10: under the default configuration the final partition's end time
would be hour 24, an invalid time of day, so `calculate_partition_end_time 6`
raises; consequently, whenever a daily record exists and the current time lies
in the last partition (from 20:00, i.e. 72000 seconds after midnight),
`get_daily_earning_status` raises instead of returning a status. -/
theorem last_partition_status_error (st : DayState) (d : DailyEarning)
    (t : TimeOfDay) (hd : st.daily = some d)
    (ht : 72000 ≤ secondsSinceMidnight t) :
    6 * defaultSettings.SECONDS_PER_PARTITION / 3600 = 24 ∧
    calculate_partition_end_time defaultSettings 6 = none ∧
    calculate_current_partition defaultSettings t = 6 ∧
    get_daily_earning_status defaultSettings st t = none := by
  have hpn : calculate_current_partition defaultSettings t = 6 := by
    unfold calculate_current_partition
    show min (secondsSinceMidnight t / 14400 + 1) 6 = 6
    omega
  refine ⟨by rfl, end_time_partition_six, hpn, ?_⟩
  simp [get_daily_earning_status, hd, hpn, end_time_partition_six]

/-- A store holding a fresh daily record (used as the C10 witness input). -/
def stWithRecord : DayState :=
  { daily := some (newDaily defaultSettings), partitions := [], history := [],
    balance := 0 }

/-- Witness for C10: a user with a fresh daily record at 20:00:00. -/
theorem last_partition_status_error_witness :
    6 * defaultSettings.SECONDS_PER_PARTITION / 3600 = 24 ∧
    calculate_partition_end_time defaultSettings 6 = none ∧
    calculate_current_partition defaultSettings ⟨20, 0, 0⟩ = 6 ∧
    get_daily_earning_status defaultSettings stWithRecord ⟨20, 0, 0⟩ = none :=
  last_partition_status_error stWithRecord (newDaily defaultSettings) ⟨20, 0, 0⟩
    rfl (by norm_num [secondsSinceMidnight])
